import Mathlib

/-!
Verification development for the ParentPal profile backend.

The Python sources are shallowly embedded as follows:

* pydantic models (`app/models/profile_models.py`) become validation
  functions returning `Except`; a pydantic `ValidationError` carrying a
  list of field-level violations is an `Except.error (List String)`.
* the Firestore document store becomes an explicit `StoreState`; each
  `ProfileService` operation (`app/services/firebase/profile_services.py`)
  is a function from `StoreState` to a result paired with the new
  `StoreState` (Python exceptions are `Except.error`, and the state that
  the function returns alongside the error reflects the writes performed
  before the exception was raised, exactly as in Firestore).
* `datetime.today()` / `datetime.now()` become explicit parameters: a
  `PyDate` (calendar date) for validation and a `Nat` tick for stored
  timestamps.  The several `datetime.now()` calls inside a single service
  call are modelled as one instant.
* the LLM calls in the agents are oracles: `MainAgent.process` is modelled
  from the point where the model's JSON reply has been parsed, and
  `ProfileAgent.process` from the point where the function-call result of
  the extraction model is known (`ExtractionOutcome`).
-/

deriving instance DecidableEq for Except

/-- Calendar date, standing for Python `datetime` restricted to its
year/month/day components (the code never compares times of day except
via `dob > datetime.today()`, where the midnight `dob` makes the
comparison agree with lexicographic date comparison). -/
structure PyDate where
  year : Nat
  month : Nat
  day : Nat
deriving DecidableEq

/-- The whitespace class used by Python `str.strip` / `str.split()`
(restricted to the characters that can actually occur here). -/
def pyWs (c : Char) : Bool :=
  c.isWhitespace

/-- The list `l` with leading and trailing whitespace characters removed
(Python `str.strip()` on the character list). -/
def stripList (l : List Char) : List Char :=
  ((l.dropWhile pyWs).reverse.dropWhile pyWs).reverse

/-- Python `str.strip()`. -/
def pyStrip (s : String) : String :=
  ⟨stripList s.data⟩

/-- Helper for `wsTokens`: `acc` holds the (reversed) characters of the
token currently being read. -/
def wsTokensAux : List Char → List Char → List (List Char)
  | acc, [] => if acc = [] then [] else [acc.reverse]
  | acc, c :: rest =>
    if pyWs c then
      if acc = [] then wsTokensAux [] rest
      else acc.reverse :: wsTokensAux [] rest
    else wsTokensAux (c :: acc) rest

/-- Python `str.split()` (no argument): maximal runs of
non-whitespace characters. -/
def wsTokens (l : List Char) : List (List Char) :=
  wsTokensAux [] l

/-- Python `full_name.split()` as a list of strings. -/
def pyTokens (s : String) : List String :=
  (wsTokens s.data).map (fun l => ⟨l⟩)

/-- Helper for `pySplitChar`: `acc` holds the (reversed) characters of
the current piece. -/
def splitCharAux (sep : Char) : List Char → List Char → List String
  | acc, [] => [⟨acc.reverse⟩]
  | acc, c :: rest =>
    if c = sep then (⟨acc.reverse⟩ : String) :: splitCharAux sep [] rest
    else splitCharAux sep (c :: acc) rest

/-- Python `s.split(sep)` for a one-character separator (empty pieces
are kept, matching Python). -/
def pySplitChar (sep : Char) (s : String) : List String :=
  splitCharAux sep [] s.data

/-- Python `int(s)` on the digit substrings produced by the code's
splitting (Python also strips surrounding whitespace before parsing;
signs never occur on the reachable inputs and are not modelled). -/
def pyInt? (s : String) : Option Nat :=
  let t := stripList s.data
  if t ≠ [] ∧ t.all Char.isDigit then
    some (t.foldl (fun acc c => 10 * acc + (c.toNat - 48)) 0)
  else none

/-- The regex `^\d{2}/\d{2}/\d{4}$` of
`PersonProfile.validate_date_format` (Python's `$` also accepts one
trailing newline). -/
def matchesDatePattern (s : String) : Bool :=
  match s.data with
  | [a, b, s1, c, d, s2, e, f, g, h] =>
    a.isDigit && b.isDigit && s1 == '/' && c.isDigit && d.isDigit &&
      s2 == '/' && e.isDigit && f.isDigit && g.isDigit && h.isDigit
  | [a, b, s1, c, d, s2, e, f, g, h, nl] =>
    a.isDigit && b.isDigit && s1 == '/' && c.isDigit && d.isDigit &&
      s2 == '/' && e.isDigit && f.isDigit && g.isDigit && h.isDigit &&
      nl == '\n'
  | _ => false

/-- Python `month, day, year = map(int, v.split('/'))`: succeeds only when the
split yields exactly three int-parsable parts (otherwise Python raises
`ValueError`, which each caller handles). -/
def parse3 (v : String) : Option (Nat × Nat × Nat) :=
  match pySplitChar '/' v with
  | [a, b, c] =>
    match pyInt? a, pyInt? b, pyInt? c with
    | some m, some d, some y => some (m, d, y)
    | _, _, _ => none
  | _ => none

/-- Returns `true` for leap years, following `datetime`'s Gregorian calendar. -/
def isLeapYear (y : Nat) : Bool :=
  y % 4 == 0 && (y % 100 != 0 || y % 400 == 0)

/-- Days in a month, as enforced by the `datetime` constructor. -/
def daysInMonth (y m : Nat) : Nat :=
  if m == 2 then (if isLeapYear y then 29 else 28)
  else if m == 4 || m == 6 || m == 9 || m == 11 then 30
  else 31

/-- Comparison `dob > today` for `dob = datetime(year, month, day)`: lexicographic
comparison of the date triples. -/
def futureB (today : PyDate) (m d y : Nat) : Bool :=
  today.year < y ||
    (today.year == y && (today.month < m ||
      (today.month == m && today.day < d)))

/-- The expression `today.year - dob.year - ((today.month, today.day) < (month, day))`,
the age computation shared by both date validators (an `Int`: it is
negative for future dates). -/
def agePy (today : PyDate) (m d y : Nat) : Int :=
  (today.year : Int) - (y : Int) -
    (if today.month < m ∨ (today.month = m ∧ today.day < d) then 1 else 0)

/-- Error prefix used by every failure of the base date validator. -/
def dverr (msg : String) : String :=
  "Date validation error: " ++ msg

/-- Embeds `PersonProfile.validate_date_format` on a non-`None` value.  Every
raise inside the validator's `try` is re-raised wrapped as
`Date validation error: ...`; the `datetime(year, month, day)`
constructor failures keep their own messages. -/
def validate_date_format (today : PyDate) (v : String) : Except String Unit :=
  if v = "" then .ok ()
  else if !matchesDatePattern v then
    .error (dverr "Date must be in MM/DD/YYYY format")
  else
    match parse3 v with
    | none => .error (dverr "invalid int literal")
    | some (m, d, y) =>
      if m < 1 || 12 < m || d < 1 || 31 < d then
        .error (dverr "Invalid month or day")
      else if y < 1 then
        .error (dverr ("year " ++ toString y ++ " is out of range"))
      else if daysInMonth y m < d then
        .error (dverr "day is out of range for month")
      else if futureB today m d y then
        .error (dverr "Date of birth cannot be in the future")
      else if 120 < agePy today m d y then
        .error (dverr "Age exceeds reasonable limit")
      else .ok ()

/-- The ChildProfile-specific message. -/
def childAgeMsg : String :=
  "Child\x27s age must be under 18"

/-- Embeds `ChildProfile.validate_child_age` on a non-`None` value: any
`ValueError` raised by the int parsing or the `datetime` constructor is
swallowed by the validator's own handler (its message does not contain
`Child's age`); only the under-18 check raises through. -/
def validate_child_age (today : PyDate) (v : String) : Except String Unit :=
  if v = "" then .ok ()
  else
    match parse3 v with
    | none => .ok ()
    | some (m, d, y) =>
      if y < 1 || m < 1 || 12 < m || d < 1 || daysInMonth y m < d then
        .ok ()
      else if 18 ≤ agePy today m d y then
        .error childAgeMsg
      else .ok ()

/-- Embeds `NameComponents.validate_name_parts`: rejects empty / all-whitespace
parts and returns the stripped value. -/
def validate_name_parts (v : String) : Except String String :=
  if v = "" ∨ pyStrip v = "" then .error "Name parts cannot be empty"
  else .ok (pyStrip v)

/-- Embeds `UserProfile.validate_address`: non-empty after stripping, and at
least two comma-separated components; returns the stripped value. -/
def validate_address (v : String) : Except String String :=
  if v = "" ∨ pyStrip v = "" then .error "Address cannot be empty"
  else if (pySplitChar ',' (pyStrip v)).length < 2 then
    .error "Address must include at least street and city, separated by commas"
  else .ok (pyStrip v)

/-- The `name` dict stored on every document: a validated
`NameComponents.dict()` (always carries all three keys). -/
structure NameDict where
  firstName : String
  middleName : Option String
  lastName : String
deriving DecidableEq

/-- Errors of an `Except (List String)` computation (empty on success),
used to collect pydantic's per-field violations. -/
def errsOf : Except (List String) α → List String
  | .ok _ => []
  | .error es => es

/-- Embeds `NameComponents(**fields)`: runs `validate_name_parts` on first and
last name, collecting both violations like pydantic does. -/
def mkNameComponents (first : String) (mid : Option String) (last : String) :
    Except (List String) NameDict :=
  match validate_name_parts first, validate_name_parts last with
  | .ok f, .ok l => .ok ⟨f, mid, l⟩
  | r1, r2 =>
    .error
      ((match r1 with | .ok _ => [] | .error e => ["firstName: " ++ e]) ++
       (match r2 with | .ok _ => [] | .error e => ["lastName: " ++ e]))

/-- The dateOfBirth violations of a `PersonProfile` (or `SpouseProfile` /
`UserProfile`) construction: the base validator only. -/
def dobErrs (today : PyDate) : Option String → List String
  | none => []
  | some d =>
    match validate_date_format today d with
    | .ok _ => []
    | .error e => [e]

/-- The dateOfBirth violations of a `ChildProfile` construction: the base
validator first; only if it passes does pydantic run
`validate_child_age`. -/
def childDobErrs (today : PyDate) : Option String → List String
  | none => []
  | some d =>
    match validate_date_format today d with
    | .error e => [e]
    | .ok _ =>
      match validate_child_age today d with
      | .error e => [e]
      | .ok _ => []

/-- A validated `PersonProfile`. -/
structure PersonVal where
  name : NameDict
  dateOfBirth : Option String
deriving DecidableEq

/-- Embeds `PersonProfile(name=..., dateOfBirth=...)`. -/
def mkPersonProfile (today : PyDate) (first : String) (mid : Option String)
    (last : String) (dob : Option String) : Except (List String) PersonVal :=
  match mkNameComponents first mid last, dobErrs today dob with
  | .ok n, [] => .ok ⟨n, dob⟩
  | nr, de => .error (errsOf nr ++ de)

/-- Embeds `SpouseProfile`, which adds nothing to `PersonProfile`. -/
def mkSpouseProfile (today : PyDate) (first : String) (mid : Option String)
    (last : String) (dob : Option String) : Except (List String) PersonVal :=
  mkPersonProfile today first mid last dob

/-- A validated `ChildProfile`. -/
structure ChildVal where
  name : NameDict
  dateOfBirth : Option String
  interests : List String
  medicalConsiderations : List String
deriving DecidableEq

/-- Embeds `ChildProfile(name=..., dateOfBirth=..., interests=...,
medicalConsiderations=...)`: both date validators apply. -/
def mkChildProfile (today : PyDate) (first : String) (mid : Option String)
    (last : String) (dob : Option String) (ints meds : List String) :
    Except (List String) ChildVal :=
  match mkNameComponents first mid last, childDobErrs today dob with
  | .ok n, [] => .ok ⟨n, dob, ints, meds⟩
  | nr, de => .error (errsOf nr ++ de)

example : validate_date_format ⟨2026, 10, 12⟩ "03/15/1980" = .ok () := by decide
example : (validate_date_format ⟨2026, 10, 12⟩ "01/01/1880").isOk = false := by decide
example : validate_child_age ⟨2026, 10, 12⟩ "03/15/2020" = .ok () := by decide
example : validate_child_age ⟨2026, 10, 12⟩ "03/15/2000" = .error childAgeMsg := by decide
example : pyTokens "John  Q  Public" = ["John", "Q", "Public"] := by decide
example : pyInt? "1980\n" = some 1980 := by decide

/-! ## Profile Store (`app/services/firebase/profile_services.py`)

Documents are dicts; a field that the code may leave absent is an
`Option`.  Absent and Firestore-`null` are collapsed into `none` for
`dateOfBirth`/`middleName` (every read in the code treats them
identically, via `.get(...)` falsiness or pydantic `Optional`); the
`name` key, when present, always holds a complete `NameComponents.dict()`
and so is `Option NameDict`. -/

/-- The user document of the `users` collection. -/
structure UserDoc where
  name : Option NameDict
  dateOfBirth : Option String
  address : Option String
  profileComplete : Option Bool
  profileCreatedAt : Option Nat
  profileUpdatedAt : Option Nat
  childrenCount : Option Nat
deriving DecidableEq

/-- The singleton document of the `spouse` sub-collection. -/
structure SpouseDoc where
  name : Option NameDict
  dateOfBirth : Option String
deriving DecidableEq

/-- A document of the `children` sub-collection. -/
structure ChildDoc where
  name : Option NameDict
  dateOfBirth : Option String
  interests : List String
  medicalConsiderations : List String
deriving DecidableEq

/-- The persisted profile graph of one user.  `children` pairs each
child document with its store-assigned id (modelled as consecutive
naturals drawn from `nextChildId`), in store iteration order. -/
structure StoreState where
  user : Option UserDoc
  spouse : Option SpouseDoc
  children : List (Nat × ChildDoc)
  nextChildId : Nat
deriving DecidableEq

/-- A document with no fields (result of a `set(..., merge=True)` on a
path whose document did not exist). -/
def emptyUserDoc : UserDoc :=
  ⟨none, none, none, none, none, none, none⟩

/-- The result dict of `getUserProfile`: `exists` is `userP.isSome`
(the source returns `{"exists": False}` with no other keys exactly when
the user document is absent). -/
structure FullProfile where
  userP : Option UserDoc
  spouseP : Option SpouseDoc
  childrenP : List (Nat × ChildDoc)
deriving DecidableEq

/-- Result dict of `getProfileCompletionStatus`. -/
structure CompletionStatus where
  isComplete : Bool
  missingFields : List String
deriving DecidableEq

/-- dict-falsiness of an optional string field (`not d.get(k)`). -/
def isFalsyOpt : Option String → Bool
  | none => true
  | some s => s == ""

/-- Merge for one dict key: `{**current, **new}` keeps the new value
when the key is present in the update. -/
def mergeOpt (new old : Option α) : Option α :=
  match new with
  | some v => some v
  | none => old

namespace ProfileService

/-- Embeds `_parse_name`: split the full name on whitespace; 2 tokens are
first/last, more are first / joined middle / last, fewer raise.  The
`NameComponents` construction validates the parts; its (unreachable,
see `parse_name_ok`) failure propagates with the violations joined. -/
def parse_name (full_name : String) : Except String NameDict :=
  let parts := pyTokens full_name
  if parts.length == 2 then
    match mkNameComponents (parts.headD "") none ((parts.getLast?).getD "") with
    | .ok n => .ok n
    | .error es => .error (String.intercalate "; " es)
  else if 2 < parts.length then
    match mkNameComponents (parts.headD "")
        (some (String.intercalate " " ((parts.drop 1).dropLast)))
        ((parts.getLast?).getD "") with
    | .ok n => .ok n
    | .error es => .error (String.intercalate "; " es)
  else .error "Name must include at least first and last name"

/-- The `initial_data` written by `_create_profile_structure`. -/
def initialStructure (now : Nat) : UserDoc :=
  { name := some ⟨"", none, ""⟩
    dateOfBirth := some ""
    address := some ""
    profileComplete := some false
    profileCreatedAt := some now
    profileUpdatedAt := some now
    childrenCount := none }

/-- Embeds `updateChildrenCount`: `set({"childrenCount": n}, merge=True)` on the
user document (creating a document carrying only that field when the
user document is absent, as Firestore merge-set does). -/
def updateChildrenCount (s : StoreState) : StoreState :=
  match s.user with
  | some u => { s with user := some { u with childrenCount := some s.children.length } }
  | none => { s with user := some { emptyUserDoc with childrenCount := some s.children.length } }

/-- Embeds `getUserProfile`: returns the full graph; when the user document
exists it also refreshes `childrenCount` (a store write) before
returning.  The returned `profile` dict is the one read before that
write, as in the source. -/
def getUserProfile (s : StoreState) : FullProfile × StoreState :=
  match s.user with
  | none => (⟨none, none, []⟩, s)
  | some u => (⟨some u, s.spouse, s.children⟩, updateChildrenCount s)

/-- The user-document checks of `getProfileCompletionStatus`. -/
def userMissing (u : UserDoc) : List String :=
  (match u.name with
   | none => ["name"]
   | some n =>
     (if n.firstName = "" then ["firstName"] else []) ++
     (if n.lastName = "" then ["lastName"] else [])) ++
  (if isFalsyOpt u.dateOfBirth then ["dateOfBirth"] else []) ++
  (if isFalsyOpt u.address then ["address"] else [])

/-- The spouse checks of `getProfileCompletionStatus` (absence of the
spouse document contributes nothing). -/
def spouseMissing : Option SpouseDoc → List String
  | none => []
  | some sp =>
    (match sp.name with
     | none => ["spouse_name"]
     | some n =>
       (if n.firstName = "" then ["spouse_firstName"] else []) ++
       (if n.lastName = "" then ["spouse_lastName"] else [])) ++
    (if isFalsyOpt sp.dateOfBirth then ["spouse_dateOfBirth"] else [])

/-- The per-child checks of `getProfileCompletionStatus`, with the
1-based index `i` baked into the field identifiers. -/
def childMissing (i : Nat) (c : ChildDoc) : List String :=
  (match c.name with
   | none => ["child_" ++ toString i ++ "_name"]
   | some n =>
     (if n.firstName = "" then ["child_" ++ toString i ++ "_firstName"] else []) ++
     (if n.lastName = "" then ["child_" ++ toString i ++ "_lastName"] else [])) ++
  (if isFalsyOpt c.dateOfBirth then ["child_" ++ toString i ++ "_dateOfBirth"] else [])

/-- Iteration over the children in store order. -/
def childrenMissing : Nat → List ChildDoc → List String
  | _, [] => []
  | i, c :: rest => childMissing i c ++ childrenMissing (i + 1) rest

/-- The completion computation of `getProfileCompletionStatus`, applied
to a fetched profile graph. -/
def completionFromProfile (p : FullProfile) : CompletionStatus :=
  match p.userP with
  | none => ⟨false, ["profile"]⟩
  | some u =>
    let mf := userMissing u ++ spouseMissing p.spouseP ++
      childrenMissing 1 (p.childrenP.map Prod.snd)
    ⟨mf.isEmpty, mf⟩

/-- Embeds `getProfileCompletionStatus`: fetch (which syncs `childrenCount`)
then compute. -/
def getProfileCompletionStatus (s : StoreState) : CompletionStatus × StoreState :=
  let r := getUserProfile s
  (completionFromProfile r.1, r.2)

/-- Embeds the merge-write of the completion flag onto the user document. -/
def setProfileCompleteFlag (s : StoreState) (b : Bool) : StoreState :=
  match s.user with
  | some u => { s with user := some { u with profileComplete := some b } }
  | none => { s with user := some { emptyUserDoc with profileComplete := some b } }

/-- Embeds `updateProfileCompletionStatus`: recompute and persist the flag. -/
def updateProfileCompletionStatus (s : StoreState) : CompletionStatus × StoreState :=
  let r := getProfileCompletionStatus s
  (r.1, setProfileCompleteFlag r.2 r.1.isComplete)

end ProfileService

/-- The update dict accepted by `updateUserProfile` (the keys the system
itself ever passes; unknown extra keys are ignored by pydantic and
never persisted, so they are not modelled). -/
structure ProfileFields where
  name : Option NameDict := none
  fullName : Option String := none
  dateOfBirth : Option String := none
  address : Option String := none
  profileComplete : Option Bool := none
  profileCreatedAt : Option Nat := none
  profileUpdatedAt : Option Nat := none
deriving DecidableEq

/-- The update dict accepted by `addSpouse`. -/
structure SpouseFields where
  name : Option NameDict := none
  fullName : Option String := none
  dateOfBirth : Option String := none
deriving DecidableEq

/-- The update dict accepted by `addChild` / `updateChild`. -/
structure ChildFields where
  name : Option NameDict := none
  fullName : Option String := none
  dateOfBirth : Option String := none
  interests : Option (List String) := none
  medicalConsiderations : Option (List String) := none
deriving DecidableEq

/-- The `name`-vs-`fullName` handling shared by all four mutating
operations: an explicit `name` dict wins, otherwise a `fullName` is
parsed (a parse failure propagates as the operation's exception), and
the resulting `Option` is `some` exactly when the merged dict will carry
a `name` key from the update. -/
def resolveNameField (name : Option NameDict) (fullName : Option String) :
    Except String (Option NameDict) :=
  match name with
  | some n => .ok (some n)
  | none =>
    match fullName with
    | some fn =>
      match ProfileService.parse_name fn with
      | .ok n => .ok (some n)
      | .error e => .error e
    | none => .ok none

/-- The merged dict `{**current_data, **profileData}` that
`updateUserProfile` validates (plus the timestamps the code injects
into `profileData` beforehand). -/
structure MergedUser where
  name : Option NameDict
  dateOfBirth : Option String
  address : Option String
  profileComplete : Option Bool
  profileCreatedAt : Option Nat
  profileUpdatedAt : Option Nat
deriving DecidableEq

/-- Builds the merged dict: `profileData` gets `profileUpdatedAt := now`
always and `profileCreatedAt := now` when the document did not exist;
every other key overrides `current` only when present in the update. -/
def mergedUserFor (f : ProfileFields) (nv : Option NameDict) (current : UserDoc)
    (existed : Bool) (now : Nat) : MergedUser :=
  { name := mergeOpt nv current.name
    dateOfBirth := mergeOpt f.dateOfBirth current.dateOfBirth
    address := mergeOpt f.address current.address
    profileComplete := mergeOpt f.profileComplete current.profileComplete
    profileCreatedAt :=
      if existed then mergeOpt f.profileCreatedAt current.profileCreatedAt
      else some now
    profileUpdatedAt := some now }

/-- A validated `UserProfile` (every field concrete; this is
`validated_profile.dict()` minus the merge bookkeeping). -/
structure ValidUser where
  name : NameDict
  dateOfBirth : Option String
  address : String
  profileComplete : Bool
  profileCreatedAt : Nat
  profileUpdatedAt : Nat
deriving DecidableEq

/-- The `name` field check of `UserProfile(**updated_data)`: required,
and validated as `NameComponents` when present. -/
def nameResOf : Option NameDict → Except (List String) NameDict
  | none => .error ["name: field required"]
  | some n => mkNameComponents n.firstName n.middleName n.lastName

/-- The `address` field check of `UserProfile(**updated_data)`:
required, and run through `validate_address` when present. -/
def addrResOf : Option String → Except (List String) String
  | none => .error ["address: field required"]
  | some a =>
    match validate_address a with
    | .ok b => .ok b
    | .error e => .error [e]

/-- Embeds `UserProfile(**updated_data)`: pydantic validates `name` (required),
`dateOfBirth` (optional, base date validator), `address` (required, its
own validator), defaults `profileComplete` to `False` and the timestamps
to `datetime.now()` (= `now`), and collects all field violations. -/
def validateUserProfile (today : PyDate) (now : Nat) (m : MergedUser) :
    Except (List String) ValidUser :=
  match nameResOf m.name, dobErrs today m.dateOfBirth, addrResOf m.address with
  | .ok n, [], .ok a =>
    .ok { name := n
          dateOfBirth := m.dateOfBirth
          address := a
          profileComplete := m.profileComplete.getD false
          profileCreatedAt := m.profileCreatedAt.getD now
          profileUpdatedAt := m.profileUpdatedAt.getD now }
  | nr, de, ar => .error (errsOf nr ++ de ++ errsOf ar)

/-- Writing `validated_profile.dict()` with `merge=True` onto the user
document: every model field is overwritten, `childrenCount` (not a model
field) keeps the document's value. -/
def docOfValid (v : ValidUser) (cc : Option Nat) : UserDoc :=
  { name := some v.name
    dateOfBirth := v.dateOfBirth
    address := some v.address
    profileComplete := some v.profileComplete
    profileCreatedAt := some v.profileCreatedAt
    profileUpdatedAt := some v.profileUpdatedAt
    childrenCount := cc }

namespace ProfileService

/-- The store after `updateUserProfile`'s create-if-absent step. -/
def s1For (now : Nat) (s : StoreState) : StoreState :=
  if s.user.isSome then s else { s with user := some (initialStructure now) }

/-- The dict `current_data = user_ref.get().to_dict() or ...` after that step (the
document always exists at this point). -/
def currentFor (now : Nat) (s : StoreState) : UserDoc :=
  (s1For now s).user.getD (initialStructure now)

/-- The store after `updateUserProfile`'s successful validation: persist
the validated dict (keeping `childrenCount`), then recompute and persist
the completion flag (which also refreshes `childrenCount`). -/
def finalFor (v : ValidUser) (now : Nat) (s : StoreState) : StoreState :=
  (updateProfileCompletionStatus
    { s1For now s with user := some (docOfValid v (currentFor now s).childrenCount) }).2

/-- Embeds `updateUserProfile`.  Order as in the source: resolve the name
(before any write), create the initial structure when the document is
absent, merge, validate (a failure raises, leaving the writes done so
far), persist the validated dict, then recompute and persist the
completion flag. -/
def updateUserProfile (today : PyDate) (now : Nat) (f : ProfileFields)
    (s : StoreState) : Except String Unit × StoreState :=
  match resolveNameField f.name f.fullName with
  | .error e => (.error e, s)
  | .ok nv =>
    match validateUserProfile today now
        (mergedUserFor f nv (currentFor now s) s.user.isSome now) with
    | .error es => (.error (String.intercalate "; " es), s1For now s)
    | .ok v => (.ok (), finalFor v now s)

/-- A validated `SpouseProfile`'s `dict()` written (merge) onto the
singleton `current` spouse document: both keys are always present, so
the write replaces both fields. -/
def addSpouse (today : PyDate) (f : SpouseFields) (s : StoreState) :
    Except String Unit × StoreState :=
  match resolveNameField f.name f.fullName with
  | .error e => (.error e, s)
  | .ok nv =>
    let nameRes : Except (List String) NameDict :=
      match nv with
      | none => .error ["name: field required"]
      | some n => mkNameComponents n.firstName n.middleName n.lastName
    match nameRes, dobErrs today f.dateOfBirth with
    | .ok n, [] =>
      (.ok (), { s with spouse := some ⟨some n, f.dateOfBirth⟩ })
    | nr, de => (.error (String.intercalate "; " (errsOf nr ++ de)), s)

/-- Embeds `addChild`: validate as `ChildProfile`, create a new child document
under a fresh id, then refresh `childrenCount`. -/
def addChild (today : PyDate) (f : ChildFields) (s : StoreState) :
    Except String Unit × StoreState :=
  match resolveNameField f.name f.fullName with
  | .error e => (.error e, s)
  | .ok nv =>
    let nameRes : Except (List String) NameDict :=
      match nv with
      | none => .error ["name: field required"]
      | some n => mkNameComponents n.firstName n.middleName n.lastName
    match nameRes, childDobErrs today f.dateOfBirth with
    | .ok n, [] =>
      let doc : ChildDoc :=
        ⟨some n, f.dateOfBirth, f.interests.getD [], f.medicalConsiderations.getD []⟩
      let s1 := { s with children := s.children ++ [(s.nextChildId, doc)],
                         nextChildId := s.nextChildId + 1 }
      (.ok (), updateChildrenCount s1)
    | nr, de => (.error (String.intercalate "; " (errsOf nr ++ de)), s)

/-- Embeds `updateChild`: the not-found result dict is returned when
the id is absent (modelled as `.ok false`), otherwise merge, re-validate
the merged child, persist.  Returns `.ok true` on success. -/
def updateChild (today : PyDate) (childId : Nat) (f : ChildFields)
    (s : StoreState) : Except String Bool × StoreState :=
  match resolveNameField f.name f.fullName with
  | .error e => (.error e, s)
  | .ok nv =>
    match (s.children.find? (fun p => p.1 == childId)) with
    | none => (.ok false, s)
    | some (_, cur) =>
      let mName := mergeOpt nv cur.name
      let mDob := mergeOpt f.dateOfBirth cur.dateOfBirth
      let mInts := f.interests.getD cur.interests
      let mMeds := f.medicalConsiderations.getD cur.medicalConsiderations
      let nameRes : Except (List String) NameDict :=
        match mName with
        | none => .error ["name: field required"]
        | some n => mkNameComponents n.firstName n.middleName n.lastName
      match nameRes, childDobErrs today mDob with
      | .ok n, [] =>
        let doc : ChildDoc := ⟨some n, mDob, mInts, mMeds⟩
        (.ok true,
          { s with children :=
              s.children.map (fun p => if p.1 == childId then (p.1, doc) else p) })
      | nr, de => (.error (String.intercalate "; " (errsOf nr ++ de)), s)

end ProfileService

/-! ## Profile Agent (`app/agents/profile_agent.py`)

`ProfileAgent.process` is modelled from the point where the LLM call has
returned.  IMPORTANT: the source logs
`f"Required fields for {action}: {required_fields[action]}"` and
`f"Missing fields: {missing_fields}"` (lines 168-169) *before* the
assignments of `required_fields` (line 172) and `missing_fields`
(line 178).  Both are locals of `process`, so evaluating the first of
these f-strings raises `UnboundLocalError`, which the function's generic
`except Exception` handler converts into the `status: "error"` response.
Consequently every branch after a successfully parsed function call —
the required-field check, the validation, and the success returns
(lines 171-256) — is unreachable dead code, and is therefore absent
from the embedding below. -/

/-- The raw field dict parsed from the extraction model's function-call
arguments. -/
structure ExtractedData where
  firstName : Option String := none
  lastName : Option String := none
  dateOfBirth : Option String := none
  address : Option String := none
  interests : Option (List String) := none
  medicalConsiderations : Option (List String) := none
deriving DecidableEq

/-- What the extraction model produced: either no structured function
call, or a parsed argument dict. -/
inductive ExtractionOutcome where
  | noFunctionCall
  | parsed (data : ExtractedData)
deriving DecidableEq

/-- The `data` payload of an agent response would be a validated model
dump; with the dead code above it is always absent, but the type is kept
so that `WorkflowAgent.process` can be embedded whole. -/
inductive DumpData where
  | userDump (name : NameDict) (dob : Option String) (address : String)
      (profileComplete : Bool) (createdAt updatedAt : Nat)
  | spouseDump (name : NameDict) (dob : Option String)
  | childDump (name : NameDict) (dob : Option String)
      (interests medicalConsiderations : List String)
deriving DecidableEq

/-- The response dict of `ProfileAgent.process`. -/
structure AgentResponse where
  status : String
  response : String
  data : Option DumpData
  action : Option String
  error : Option String
deriving DecidableEq

/-- The `str(e)` of the `UnboundLocalError` raised by the premature log
statement (CPython 3.11+ wording). -/
def unboundLocalMsg : String :=
  "cannot access local variable \x27required_fields\x27 where it is not associated with a value"

namespace ProfileAgent

/-- Embeds `ProfileAgent.process` after the LLM call: no function call yields
the `needs_input` clarification; a parsed function call immediately hits
the premature log statement, so the generic handler returns the error
response. -/
def process (action : String) (outcome : ExtractionOutcome) : AgentResponse :=
  match outcome with
  | .noFunctionCall =>
    { status := "needs_input"
      response := "I couldn\x27t extract the necessary information. Could you provide more details?"
      data := none
      action := some action
      error := none }
  | .parsed _ =>
    { status := "error"
      response := "An unexpected error occurred while processing your request."
      data := none
      action := some action
      error := some unboundLocalMsg }

end ProfileAgent

/-! ## Workflow Agent (`app/agents/workflow_agent.py`) -/

/-- The `ProfileStatus` model. -/
structure ProfileStatus where
  pexists : Bool
  is_complete : Bool
  missing_fields : List String
  profile_data : Option FullProfile
  error : Option String
deriving DecidableEq

/-- The `WorkflowResponse` shape. -/
structure WorkflowResponse where
  status : String
  response : String
  profile_status : ProfileStatus
  error : Option String
deriving DecidableEq

namespace WorkflowAgent

/-- Embeds `get_profile_status`: one `getUserProfile` plus one
`getProfileCompletionStatus` (each of which refreshes `childrenCount`
when the user document exists); the store it returns reflects both. -/
def get_profile_status (s : StoreState) : ProfileStatus × StoreState :=
  let r1 := ProfileService.getUserProfile s
  let r2 := ProfileService.getProfileCompletionStatus r1.2
  ({ pexists := r1.1.userP.isSome
     is_complete := r2.1.isComplete
     missing_fields := r2.1.missingFields
     profile_data := some r1.1
     error := none }, r2.2)

/-- The `view` reply when no user record exists. -/
def noProfileMsg : String :=
  "I see you haven\x27t set up your profile yet. Would you like to create one now?"

/-- The `view` reply for an existing but incomplete profile. -/
def incompleteMsg (missing : List String) : String :=
  "Your profile is incomplete. The following information is missing: " ++
    String.intercalate ", " missing ++ ". Would you like to add this information?"

/-- The `view` reply for a complete profile. -/
def completeMsg : String :=
  "Your profile is complete! Let me know if you\x27d like to view or update any information."

/-- Embeds `_handle_view_profile`: purely a function of the fetched status. -/
def handle_view_profile (status : ProfileStatus) : WorkflowResponse :=
  if status.error.isSome then
    { status := "error"
      response := "There was an issue retrieving your profile information."
      profile_status := status
      error := some "Error retrieving profile status" }
  else if !status.pexists then
    { status := "success"
      response := noProfileMsg
      profile_status := status
      error := none }
  else if !status.is_complete then
    { status := "success"
      response := incompleteMsg status.missing_fields
      profile_status := status
      error := none }
  else
    { status := "success"
      response := completeMsg
      profile_status := status
      error := none }

/-- The `ProfileFields` carried by a `UserProfile.dict()` dump (the whole
dump is passed as the update dict, timestamps and flag included). -/
def fieldsOfUserDump (n : NameDict) (dob : Option String) (a : String)
    (pc : Bool) (cAt uAt : Nat) : ProfileFields :=
  { name := some n, fullName := none, dateOfBirth := dob, address := some a
    profileComplete := some pc, profileCreatedAt := some cAt
    profileUpdatedAt := some uAt }

/-- Embeds `_update_profile`: dispatch on the action string; the dumps carry no
`childId`, so `update_child` always raises the missing-child-id
`WorkflowError`; anything else raises the unknown-action `WorkflowError`.
Any failure is re-raised wrapped as `Failed to update profile: ...`. -/
def update_profile_op (today : PyDate) (now : Nat) (action : String)
    (d : DumpData) (s : StoreState) : Except String Unit × StoreState :=
  let r : Except String Unit × StoreState :=
    if action = "update_profile" then
      match d with
      | .userDump n dob a pc cAt uAt =>
        ProfileService.updateUserProfile today now (fieldsOfUserDump n dob a pc cAt uAt) s
      | .spouseDump n dob =>
        ProfileService.updateUserProfile today now
          { name := some n, dateOfBirth := dob } s
      | .childDump n dob _ _ =>
        ProfileService.updateUserProfile today now
          { name := some n, dateOfBirth := dob } s
    else if action = "add_spouse" then
      match d with
      | .userDump n dob _ _ _ _ =>
        ProfileService.addSpouse today { name := some n, dateOfBirth := dob } s
      | .spouseDump n dob =>
        ProfileService.addSpouse today { name := some n, dateOfBirth := dob } s
      | .childDump n dob _ _ =>
        ProfileService.addSpouse today { name := some n, dateOfBirth := dob } s
    else if action = "add_child" then
      match d with
      | .userDump n dob _ _ _ _ =>
        ProfileService.addChild today { name := some n, dateOfBirth := dob } s
      | .spouseDump n dob =>
        ProfileService.addChild today { name := some n, dateOfBirth := dob } s
      | .childDump n dob ints meds =>
        (ProfileService.addChild today
          { name := some n, dateOfBirth := dob, interests := some ints
            medicalConsiderations := some meds } s)
    else if action = "update_child" then
      (.error "Missing child ID for update operation", s)
    else (.error ("Unknown action: " ++ action), s)
  match r.1 with
  | .ok _ => (.ok (), r.2)
  | .error e => (.error ("Failed to update profile: " ++ e), r.2)

/-- Embeds `WorkflowAgent.process`: fetch status; `view` is terminal; otherwise
run the profile agent on the extraction outcome and either persist its
(never-produced) success data or pass its response through. -/
def process (today : PyDate) (now : Nat) (action : String)
    (outcome : ExtractionOutcome) (s : StoreState) : WorkflowResponse × StoreState :=
  let st := get_profile_status s
  let status := st.1
  let s1 := st.2
  if action = "view" then (handle_view_profile status, s1)
  else
    let ar := ProfileAgent.process action outcome
    match ar.data with
    | some d =>
      if ar.status = "success" then
        let act := match ar.action with
          | some a => if a = "" then action else a
          | none => action
        let r := update_profile_op today now act d s1
        match r.1 with
        | .ok _ =>
          let st2 := get_profile_status r.2
          ({ status := "success", response := ar.response
             profile_status := st2.1, error := none }, st2.2)
        | .error e =>
          ({ status := "error"
             response := "An error occurred while processing your request."
             profile_status := status, error := some e }, r.2)
      else
        ({ status := ar.status, response := ar.response
           profile_status := status, error := ar.error }, s1)
    | none =>
      ({ status := ar.status, response := ar.response
         profile_status := status, error := ar.error }, s1)

end WorkflowAgent

/-! ## Router (`app/agents/main_agent.py`) -/

/-- The parsed JSON reply of the routing model (plus the `user_id` the
code attaches). -/
structure RouterData where
  workflow : String
  action : Option String := none
  context : Option String := none
  response : String
  user_id : Option String := none
deriving DecidableEq

/-- The valid profile actions of `MainAgent.process`. -/
def validActions : List String :=
  ["update_profile", "add_spouse", "add_child", "view"]

/-- The fixed welcome message used by the default-to-onboarding path. -/
def welcomeMsg : String :=
  "Welcome to ParentPal! I\x27m thrilled to have you with us. Let\x27s get started on setting up your profile. This will help us tailor your experience and provide you with the most relevant information and suggestions. If you need any help along the way, just let me know!"

namespace MainAgent

/-- The post-parse tail of `MainAgent.process`: attach `user_id`; when
`workflow == "profile"` and `action` is missing, empty, or not a valid
action, force onboarding. -/
def route (user_id : String) (d : RouterData) : RouterData :=
  let d1 := { d with user_id := some user_id }
  if d1.workflow = "profile" then
    let current := d1.action.getD ""
    if current = "" ∨ !(validActions.contains current) then
      { d1 with action := some "update_profile"
                context := some "New user sign-in"
                response := welcomeMsg }
    else d1
  else d1

end MainAgent

/-! ## Derived predicates and concrete fixtures used by the theorems -/

/-- The `profileComplete` boolean persisted on the user record, if any. -/
def userFlag (s : StoreState) : Option Bool :=
  match s.user with
  | some u => u.profileComplete
  | none => none

/-- Returns `true` when the error message is a date-validation error (carries
the `Date validation error` wrapper of the base date validator). -/
def isDateErr (e : String) : Bool :=
  e.data.take 21 == "Date validation error".data

/-- A failed construction at least one of whose violations is a
date-validation error. -/
def failsWithDateErr : Except (List String) α → Bool
  | .error es => es.any isDateErr
  | .ok _ => false

/-- The argument validity check of the `datetime` constructor. -/
def datetimeValidB (y m d : Nat) : Bool :=
  1 ≤ y && 1 ≤ m && m ≤ 12 && 1 ≤ d && d ≤ daysInMonth y m

/-- A fixed evaluation date for the concrete witnesses. -/
def today0 : PyDate := ⟨2026, 10, 12⟩

/-- A store with no documents at all. -/
def emptyStore : StoreState := ⟨none, none, [], 0⟩

/-- The extraction dict of the John Smith scenario (all four
update_profile fields present and individually valid). -/
def johnData : ExtractedData :=
  { firstName := some "John", lastName := some "Smith"
    dateOfBirth := some "03/15/1980"
    address := some "123 Main St, Springfield, IL" }

/-- Extraction dict for add_spouse with only a first name. -/
def janeOnlyFirst : ExtractedData :=
  { firstName := some "Jane" }

/-- A fully complete user document whose persisted flag matches. -/
def uComplete : UserDoc :=
  { name := some ⟨"John", none, "Smith"⟩
    dateOfBirth := some "03/15/1980"
    address := some "123 Main St, Springfield"
    profileComplete := some true
    profileCreatedAt := some 1
    profileUpdatedAt := some 1
    childrenCount := some 0 }

/-- A store holding only that complete user. -/
def sComplete : StoreState := ⟨some uComplete, none, [], 0⟩

/-- The same store with a stale `childrenCount` (5 recorded, no child
documents). -/
def sStale : StoreState :=
  ⟨some { uComplete with childrenCount := some 5 }, none, [], 0⟩


/-- The claimed same-persisted-state-apart-from-profileUpdatedAt: the first result with only that field replaced. -/
def bumpUpdatedAt (s : StoreState) (t : Nat) : StoreState :=
  { s with user := s.user.map (fun u => { u with profileUpdatedAt := some t }) }

/-- A field mapping carrying an explicit `profileCreatedAt` (as the
full-dump dicts passed through `_update_profile` do). -/
def f8created : ProfileFields :=
  { name := some ⟨"John", none, "Smith"⟩, dateOfBirth := some "03/15/1980"
    address := some "1 A St, Town", profileCreatedAt := some 42 }

/-- A plain extraction-derived field mapping. -/
def f8plain : ProfileFields :=
  { name := some ⟨"John", none, "Smith"⟩, dateOfBirth := some "03/15/1980"
    address := some "1 A St, Town" }


/-- The completion boolean recomputed by `updateProfileCompletionStatus`
over the graph persisted by a successful `updateUserProfile`. -/
def completionB (v : ValidUser) (s : StoreState) : Bool :=
  (ProfileService.userMissing (docOfValid v none) ++ ProfileService.spouseMissing s.spouse ++
    ProfileService.childrenMissing 1 (s.children.map Prod.snd)).isEmpty

/-- The user document persisted by a successful `updateUserProfile`. -/
def u1For (v : ValidUser) (s : StoreState) : UserDoc :=
  { name := some v.name, dateOfBirth := v.dateOfBirth, address := some v.address
    profileComplete := some (completionB v s)
    profileCreatedAt := some v.profileCreatedAt
    profileUpdatedAt := some v.profileUpdatedAt
    childrenCount := some s.children.length }

/-! ## Claims -/

/-- C1: the claim says an update_profile request whose extraction yields
all four required, valid fields is persisted and answered with status
`success`.  The code cannot do this: the premature log statement in
`ProfileAgent.process` raises before the required-field check, so the
Coordinator returns status `error` and writes nothing.  This theorem
evaluates the pipeline at the John Smith scenario input. -/
theorem C1_success_path_dead :
    (WorkflowAgent.process today0 0 "update_profile" (.parsed johnData) emptyStore).1.status
        = "error" ∧
    (WorkflowAgent.process today0 0 "update_profile" (.parsed johnData) emptyStore).1.status
        ≠ "success" ∧
    (WorkflowAgent.process today0 0 "update_profile" (.parsed johnData) emptyStore).2
        = emptyStore := by
  refine ⟨rfl, by decide, rfl⟩

/-- C3: the claim says a collect action with a missing required field is
answered `needs_input` naming the missing fields.  The same premature
log statement fires first, so the Coordinator returns status `error`
instead; no store write happens.  Evaluated at add_spouse with only a
first name extracted. -/
theorem C3_needs_input_path_dead :
    (WorkflowAgent.process today0 0 "add_spouse" (.parsed janeOnlyFirst) emptyStore).1.status
        = "error" ∧
    (WorkflowAgent.process today0 0 "add_spouse" (.parsed janeOnlyFirst) emptyStore).1.status
        ≠ "needs_input" ∧
    (WorkflowAgent.process today0 0 "add_spouse" (.parsed janeOnlyFirst) emptyStore).2
        = emptyStore := by
  refine ⟨rfl, by decide, rfl⟩

/-- C2 counterexample: `addSpouse` succeeds on a complete profile
(spouse name only, no spouse dateOfBirth) but does not recompute the
completion flag: the persisted flag stays `true` while the status
recomputed from the full graph is incomplete. -/
theorem C2_counterexample :
    (ProfileService.addSpouse today0 { name := some ⟨"Jane", none, "Smith"⟩ } sComplete).1
        = .ok () ∧
    userFlag (ProfileService.addSpouse today0 { name := some ⟨"Jane", none, "Smith"⟩ } sComplete).2
        = some true ∧
    (ProfileService.getProfileCompletionStatus
        (ProfileService.addSpouse today0 { name := some ⟨"Jane", none, "Smith"⟩ } sComplete).2).1.isComplete
        = false := by
  refine ⟨rfl, rfl, rfl⟩

/-- C4 counterexample: a `view` request on a user whose stored
`childrenCount` is stale rewrites that field, so the persisted user
document is not unchanged. -/
theorem C4_counterexample :
    (WorkflowAgent.process today0 0 "view" .noFunctionCall sStale).2 ≠ sStale := by
  decide

/-- C5 counterexample: a ChildProfile date whose computed age is 146
(≥ 18) fails, but with the generic date-validation error of the base
validator, not the child-specific error: the base validator runs first
and pydantic stops at its failure. -/
theorem C5_counterexample :
    mkChildProfile today0 "Ann" none "Lee" (some "01/01/1880") [] []
        = .error [dverr "Age exceeds reasonable limit"] ∧
    childAgeMsg ≠ dverr "Age exceeds reasonable limit" := by
  refine ⟨rfl, by decide⟩

/-- C9: whenever the routing model answers `workflow: "profile"` with a
missing, empty, or invalid action, `MainAgent.process` forces
`update_profile`, the `New user sign-in` context, and the fixed welcome
message. -/
theorem C9_default_to_onboarding (uid : String) (d : RouterData)
    (hw : d.workflow = "profile")
    (ha : d.action = none ∨ ∀ a, d.action = some a → validActions.contains a = false) :
    MainAgent.route uid d =
      { d with user_id := some uid, action := some "update_profile"
               context := some "New user sign-in", response := welcomeMsg } := by
  unfold MainAgent.route
  rcases ha with h | h
  · simp [h, hw]
  · cases hd : d.action with
    | none => simp [hd, hw]
    | some a =>
      have hc : a ∉ validActions := by simpa using h a hd
      by_cases he : a = ""
      · simp [hd, hw, he]
      · simp [hd, hw, he, hc]

/-- Witness for C9 at a concrete router reply with no action field. -/
theorem C9_witness :
    MainAgent.route "u1" ⟨"profile", none, none, "hi", none⟩ =
      ⟨"profile", some "update_profile", some "New user sign-in", welcomeMsg, some "u1"⟩ :=
  C9_default_to_onboarding "u1" ⟨"profile", none, none, "hi", none⟩ rfl (Or.inl rfl)

/-- C10: for a first-time user (no user document), an `updateUser` call
whose merged result fails `UserProfile` validation raises, but the
initial empty structure written before validation stays persisted:
empty name parts, empty dateOfBirth and address, `profileComplete`
false, and creation/update timestamps. -/
theorem C10_initial_structure_persists (today : PyDate) (now : Nat)
    (f : ProfileFields) (s : StoreState) (nv : Option NameDict) (es : List String)
    (hu : s.user = none)
    (hn : resolveNameField f.name f.fullName = .ok nv)
    (hv : validateUserProfile today now
        (mergedUserFor f nv (ProfileService.initialStructure now) false now) = .error es) :
    ProfileService.updateUserProfile today now f s =
      (.error (String.intercalate "; " es),
       { s with user := some (ProfileService.initialStructure now) }) := by
  unfold ProfileService.updateUserProfile
  rw [hn]
  simp [ProfileService.currentFor, ProfileService.s1For, hu, hv]

/-- Witness for C10: an empty update dict on a fresh user. -/
theorem C10_witness :
    ProfileService.updateUserProfile today0 7 {} emptyStore =
      (.error (String.intercalate "; "
        ["firstName: Name parts cannot be empty",
         "lastName: Name parts cannot be empty",
         "Address cannot be empty"]),
       { emptyStore with user := some (ProfileService.initialStructure 7) }) :=
  C10_initial_structure_persists today0 7 {} emptyStore none _ rfl rfl rfl

/-- C2 amended: only `updateUser` re-runs the completion computation and
persists the flag — after a successful `updateUserProfile` the persisted
`profileComplete` equals the completion status recomputed from the full
profile graph; `addSpouse`, `addChild` and `updateChild` never touch the
persisted flag. -/
theorem C2_amended_only_updateUser_recomputes :
    (∀ (today : PyDate) (now : Nat) (f : ProfileFields) (s : StoreState),
      (ProfileService.updateUserProfile today now f s).1 = .ok () →
        userFlag (ProfileService.updateUserProfile today now f s).2 =
          some (ProfileService.getProfileCompletionStatus
            (ProfileService.updateUserProfile today now f s).2).1.isComplete) ∧
    (∀ (today : PyDate) (f : SpouseFields) (s : StoreState),
      userFlag (ProfileService.addSpouse today f s).2 = userFlag s) ∧
    (∀ (today : PyDate) (f : ChildFields) (s : StoreState),
      userFlag (ProfileService.addChild today f s).2 = userFlag s) ∧
    (∀ (today : PyDate) (cid : Nat) (f : ChildFields) (s : StoreState),
      userFlag (ProfileService.updateChild today cid f s).2 = userFlag s) := by
  refine ⟨?_, ?_, ?_, ?_⟩
  · intro today now f s h
    simp only [ProfileService.updateUserProfile] at h ⊢
    split at h
    · simp at h
    · rename_i nv hn
      split at h
      · simp at h
      · rename_i v hv
        simp [ProfileService.finalFor, ProfileService.s1For, ProfileService.currentFor,
          ProfileService.updateProfileCompletionStatus,
          ProfileService.getProfileCompletionStatus, ProfileService.getUserProfile,
          ProfileService.updateChildrenCount, ProfileService.setProfileCompleteFlag,
          ProfileService.completionFromProfile, ProfileService.userMissing,
          ProfileService.spouseMissing, ProfileService.childrenMissing,
          userFlag, docOfValid]
  · intro today f s
    simp only [ProfileService.addSpouse]
    split
    · rfl
    · split <;> simp [userFlag]
  · intro today f s
    simp only [ProfileService.addChild]
    split
    · rfl
    · split
      · cases hu : s.user <;>
          simp [ProfileService.updateChildrenCount, userFlag, hu, emptyUserDoc]
      · simp [userFlag]
  · intro today cid f s
    simp only [ProfileService.updateChild]
    split
    · rfl
    · split
      · rfl
      · split <;> simp [userFlag]

/-- Witness for C2 amended: the first conjunct applied to a concrete
successful update, the rest at concrete stores. -/
theorem C2_amended_witness :
    userFlag (ProfileService.updateUserProfile today0 3
        { dateOfBirth := some "03/15/1980" } sComplete).2 =
      some (ProfileService.getProfileCompletionStatus
        (ProfileService.updateUserProfile today0 3
          { dateOfBirth := some "03/15/1980" } sComplete).2).1.isComplete ∧
    userFlag (ProfileService.addSpouse today0
        { name := some ⟨"Jane", none, "Smith"⟩ } sComplete).2 = userFlag sComplete := by
  exact ⟨C2_amended_only_updateUser_recomputes.1 today0 3 _ sComplete rfl,
    C2_amended_only_updateUser_recomputes.2.1 today0 _ sComplete⟩

/-- The check `userMissing` ignores `childrenCount`. -/
theorem userMissing_cc (u : UserDoc) (cc : Option Nat) :
    ProfileService.userMissing { u with childrenCount := cc } =
      ProfileService.userMissing u := rfl

/-- C4 amended: a `view` request makes no extraction call (its result is
independent of the extraction oracle) and its only store mutation is the
status fetch refreshing `childrenCount` on an existing user document to
the actual number of child documents; the reply is derived purely from
the fetched completion status: "no profile yet" when the record is
absent, the missing-field list when incomplete, the "complete" message
otherwise. -/
theorem C4_amended_view_only_syncs_count (today : PyDate) (now : Nat)
    (o1 o2 : ExtractionOutcome) (s : StoreState) :
    WorkflowAgent.process today now "view" o1 s = WorkflowAgent.process today now "view" o2 s ∧
    (WorkflowAgent.process today now "view" o1 s).2 =
      (match s.user with
       | none => s
       | some u => { s with user := some { u with childrenCount := some s.children.length } }) ∧
    (WorkflowAgent.process today now "view" o1 s).1.status = "success" ∧
    (s.user = none →
      (WorkflowAgent.process today now "view" o1 s).1.response = WorkflowAgent.noProfileMsg) ∧
    (∀ u, s.user = some u →
      (ProfileService.completionFromProfile ⟨some u, s.spouse, s.children⟩).isComplete = false →
      (WorkflowAgent.process today now "view" o1 s).1.response =
        WorkflowAgent.incompleteMsg
          (ProfileService.completionFromProfile ⟨some u, s.spouse, s.children⟩).missingFields) ∧
    (∀ u, s.user = some u →
      (ProfileService.completionFromProfile ⟨some u, s.spouse, s.children⟩).isComplete = true →
      (WorkflowAgent.process today now "view" o1 s).1.response = WorkflowAgent.completeMsg) := by
  have hone : ∀ o : ExtractionOutcome, WorkflowAgent.process today now "view" o s =
      (WorkflowAgent.handle_view_profile (WorkflowAgent.get_profile_status s).1,
       (WorkflowAgent.get_profile_status s).2) := by
    intro o
    simp [WorkflowAgent.process]
  refine ⟨by rw [hone o1, hone o2], ?_, ?_, ?_, ?_, ?_⟩
  · rw [hone o1]
    cases hu : s.user with
    | none =>
      simp [WorkflowAgent.get_profile_status, ProfileService.getUserProfile,
        ProfileService.getProfileCompletionStatus, ProfileService.updateChildrenCount, hu]
    | some u =>
      simp [WorkflowAgent.get_profile_status, ProfileService.getUserProfile,
        ProfileService.getProfileCompletionStatus, ProfileService.updateChildrenCount, hu]
  · rw [hone o1]
    cases hu : s.user with
    | none =>
      simp [WorkflowAgent.get_profile_status, ProfileService.getUserProfile,
        ProfileService.getProfileCompletionStatus, ProfileService.updateChildrenCount,
        ProfileService.completionFromProfile, WorkflowAgent.handle_view_profile, hu]
    | some u =>
      simp [WorkflowAgent.get_profile_status, ProfileService.getUserProfile,
        ProfileService.getProfileCompletionStatus, ProfileService.updateChildrenCount,
        ProfileService.completionFromProfile, WorkflowAgent.handle_view_profile, hu]
      split <;> rfl
  · intro hu
    rw [hone o1]
    simp [WorkflowAgent.get_profile_status, ProfileService.getUserProfile,
      ProfileService.getProfileCompletionStatus, ProfileService.updateChildrenCount,
      ProfileService.completionFromProfile, WorkflowAgent.handle_view_profile, hu]
  · intro u hu hC
    rw [hone o1]
    simp only [ProfileService.completionFromProfile] at hC
    simp only [WorkflowAgent.get_profile_status, ProfileService.getUserProfile,
      ProfileService.getProfileCompletionStatus, ProfileService.updateChildrenCount,
      ProfileService.completionFromProfile, WorkflowAgent.handle_view_profile, hu,
      userMissing_cc]
    rw [hC]
    rfl
  · intro u hu hC
    rw [hone o1]
    simp only [ProfileService.completionFromProfile] at hC
    simp only [WorkflowAgent.get_profile_status, ProfileService.getUserProfile,
      ProfileService.getProfileCompletionStatus, ProfileService.updateChildrenCount,
      ProfileService.completionFromProfile, WorkflowAgent.handle_view_profile, hu,
      userMissing_cc]
    rw [hC]
    rfl

/-- Witness for C4 amended at the stale-count store. -/
theorem C4_amended_witness :
    WorkflowAgent.process today0 0 "view" .noFunctionCall sStale =
      WorkflowAgent.process today0 0 "view" (.parsed johnData) sStale ∧
    (WorkflowAgent.process today0 0 "view" .noFunctionCall sStale).1.response =
      WorkflowAgent.completeMsg := by
  refine ⟨(C4_amended_view_only_syncs_count today0 0 _ _ sStale).1, ?_⟩
  exact (C4_amended_view_only_syncs_count today0 0 .noFunctionCall .noFunctionCall sStale).2.2.2.2.2
    { uComplete with childrenCount := some 5 } rfl (by decide)

/-- A string matching the date regex is non-empty. -/
theorem matchesDatePattern_ne_empty {s : String} (h : matchesDatePattern s = true) :
    s ≠ "" := by
  intro he
  subst he
  exact absurd h (by decide)

/-- Every wrapped message of the base date validator is recognised as a
date-validation error. -/
theorem isDateErr_dverr (msg : String) : isDateErr (dverr msg) = true := by
  have hd : (dverr msg).data = "Date validation error: ".data ++ msg.data := rfl
  simp only [isDateErr, hd]
  rw [List.take_append_of_le_length (by decide)]
  decide

/-- Core of C6: on any pattern-matching date string with month and day
in range whose date is in the future or whose computed age exceeds 120,
the base date validator fails with a date-validation error. -/
theorem validate_date_format_err (today : PyDate) {s : String} {m d y : Nat}
    (hps : parse3 s = some (m, d, y)) (hpat : matchesDatePattern s = true)
    (hm1 : 1 ≤ m) (hm2 : m ≤ 12) (hd1 : 1 ≤ d) (hd2 : d ≤ 31)
    (hfa : futureB today m d y = true ∨ 120 < agePy today m d y) :
    ∃ e, validate_date_format today s = .error e ∧ isDateErr e = true := by
  unfold validate_date_format
  rw [if_neg (matchesDatePattern_ne_empty hpat), hpat, hps]
  simp only [Bool.not_true]
  rw [if_neg (by simp), if_neg (by simp; omega)]
  by_cases hy : y < 1
  · rw [if_pos hy]
    exact ⟨_, rfl, isDateErr_dverr _⟩
  · rw [if_neg hy]
    by_cases hdm : daysInMonth y m < d
    · rw [if_pos hdm]
      exact ⟨_, rfl, isDateErr_dverr _⟩
    · rw [if_neg hdm]
      cases hfu : futureB today m d y with
      | true =>
        exact ⟨_, rfl, isDateErr_dverr _⟩
      | false =>
        have hage : 120 < agePy today m d y := by
          rcases hfa with h | h
          · rw [hfu] at h
            exact absurd h (by simp)
          · exact h
        rw [if_neg (show ¬(false = true) by simp), if_pos hage]
        exact ⟨_, rfl, isDateErr_dverr _⟩

/-- C6: for every string in valid MM/DD/YYYY format (month in [1,12],
day in [1,31]) whose date lies in the future or implies a computed age
over 120, constructing a `PersonProfile` — or any variant:
`SpouseProfile`, `ChildProfile`, `UserProfile` — with that string as
dateOfBirth fails with a date-validation error among its violations. -/
theorem C6_future_or_overage_dates_rejected (today : PyDate) (now : Nat)
    (s : String) (m d y : Nat) (first : String) (mid : Option String)
    (last : String) (ints meds : List String) (mu : MergedUser)
    (hps : parse3 s = some (m, d, y)) (hpat : matchesDatePattern s = true)
    (hm1 : 1 ≤ m) (hm2 : m ≤ 12) (hd1 : 1 ≤ d) (hd2 : d ≤ 31)
    (hdob : mu.dateOfBirth = some s)
    (hfa : futureB today m d y = true ∨ 120 < agePy today m d y) :
    failsWithDateErr (mkPersonProfile today first mid last (some s)) = true ∧
    failsWithDateErr (mkSpouseProfile today first mid last (some s)) = true ∧
    failsWithDateErr (mkChildProfile today first mid last (some s) ints meds) = true ∧
    failsWithDateErr (validateUserProfile today now mu) = true := by
  obtain ⟨e, hv, he⟩ := validate_date_format_err today hps hpat hm1 hm2 hd1 hd2 hfa
  have hperson : failsWithDateErr (mkPersonProfile today first mid last (some s)) = true := by
    cases hn : mkNameComponents first mid last <;>
      simp [mkPersonProfile, dobErrs, hv, hn, failsWithDateErr, errsOf,
        List.any_append, he]
  refine ⟨hperson, hperson, ?_, ?_⟩
  · cases hn : mkNameComponents first mid last <;>
      simp [mkChildProfile, childDobErrs, hv, hn, failsWithDateErr, errsOf,
        List.any_append, he]
  · simp only [validateUserProfile, hdob, dobErrs, hv]
    split
    · rename_i n a h1 h2 h3
      exact absurd h2 (by simp)
    · simp [failsWithDateErr, errsOf, List.any_append, he]

/-- Witness for C6 at a concrete future date and a concrete over-120
date. -/
theorem C6_witness :
    failsWithDateErr (mkPersonProfile today0 "Al" none "Bo" (some "01/01/2030")) = true ∧
    failsWithDateErr (mkChildProfile today0 "Al" none "Bo" (some "01/01/1880") [] []) = true := by
  refine ⟨(C6_future_or_overage_dates_rejected today0 0 "01/01/2030" 1 1 2030 "Al" none "Bo"
    [] [] ⟨none, some "01/01/2030", none, none, none, none⟩ rfl rfl (by decide) (by decide)
    (by decide) (by decide) rfl (Or.inl (by decide))).1, ?_⟩
  exact (C6_future_or_overage_dates_rejected today0 0 "01/01/1880" 1 1 1880 "Al" none "Bo"
    [] [] ⟨none, some "01/01/1880", none, none, none, none⟩ rfl rfl (by decide) (by decide)
    (by decide) (by decide) rfl (Or.inr (by decide))).2.2.1

/-- Month lengths never exceed 31. -/
theorem daysInMonth_le (y m : Nat) : daysInMonth y m ≤ 31 := by
  unfold daysInMonth
  split_ifs <;> omega

/-- C5 amended: for every MM/DD/YYYY date string that passes the base
date validation (valid calendar date, not in the future — implied by the
age bound — and computed age at most 120) whose computed age is at least
18, `ChildProfile` construction fails carrying exactly the
child-specific error `Child's age must be under 18`; for ages above 120
the base validator's generic date error pre-empts it (see the
counterexample). -/
theorem C5_amended_underage_check (today : PyDate) (s : String) (m d y : Nat)
    (first : String) (mid : Option String) (last : String)
    (ints meds : List String) (n : NameDict)
    (hps : parse3 s = some (m, d, y)) (hpat : matchesDatePattern s = true)
    (hdt : datetimeValidB y m d = true)
    (h18 : 18 ≤ agePy today m d y) (h120 : agePy today m d y ≤ 120)
    (hn : mkNameComponents first mid last = .ok n) :
    mkChildProfile today first mid last (some s) ints meds = .error [childAgeMsg] := by
  simp only [datetimeValidB, Bool.and_eq_true, decide_eq_true_eq] at hdt
  obtain ⟨⟨⟨⟨hy1, hm1⟩, hm2⟩, hd1⟩, hd2⟩ := hdt
  have hyt : y < today.year := by
    unfold agePy at h18
    by_cases hc : (today.month < m ∨ (today.month = m ∧ today.day < d))
    · rw [if_pos hc] at h18
      omega
    · rw [if_neg hc] at h18
      omega
  have hfu : futureB today m d y = false := by
    unfold futureB
    simp
    omega
  have hd31 : d ≤ 31 := le_trans hd2 (daysInMonth_le y m)
  have hok : validate_date_format today s = .ok () := by
    unfold validate_date_format
    rw [if_neg (matchesDatePattern_ne_empty hpat), hpat, hps]
    simp only [Bool.not_true]
    rw [if_neg (by simp), if_neg (by simp; omega),
      if_neg (by omega), if_neg (by omega), if_neg (by simp [hfu]),
      if_neg (by omega)]
  have hchild : validate_child_age today s = .error childAgeMsg := by
    unfold validate_child_age
    rw [if_neg (matchesDatePattern_ne_empty hpat), hps]
    simp only []
    rw [if_neg (by simp; omega), if_pos h18]
  have hde : childDobErrs today (some s) = [childAgeMsg] := by
    simp [childDobErrs, hok, hchild]
  simp [mkChildProfile, hn, hde, errsOf]

/-- Witness for C5 amended at a 26-year-old child date. -/
theorem C5_amended_witness :
    mkChildProfile today0 "Ann" none "Lee" (some "03/15/2000") [] []
      = .error [childAgeMsg] :=
  C5_amended_underage_check today0 "03/15/2000" 3 15 2000 "Ann" none "Lee" [] []
    ⟨"Ann", none, "Lee"⟩ rfl rfl (by decide) (by decide) (by decide) rfl

/-- The function `dropWhile` is the identity on lists none of whose elements satisfy
the predicate. -/
theorem dropWhile_all_false {p : Char → Bool} {l : List Char}
    (h : ∀ c ∈ l, p c = false) : l.dropWhile p = l := by
  cases l with
  | nil => rfl
  | cons a l => simp [List.dropWhile_cons, h a (by simp)]

/-- Every token produced by the whitespace split is non-empty and free
of whitespace characters. -/
theorem wsTokensAux_mem {t : List Char} :
    ∀ {l acc : List Char}, (∀ c ∈ acc, pyWs c = false) →
    t ∈ wsTokensAux acc l → t ≠ [] ∧ ∀ c ∈ t, pyWs c = false := by
  intro l
  induction l with
  | nil =>
    intro acc hacc ht
    unfold wsTokensAux at ht
    split at ht
    · simp at ht
    · rename_i hne
      simp at ht
      subst ht
      refine ⟨by simpa using hne, ?_⟩
      intro c hc
      exact hacc c (by simpa using hc)
  | cons c rest ih =>
    intro acc hacc ht
    unfold wsTokensAux at ht
    split at ht
    · split at ht
      · exact ih (by simp) ht
      · rename_i hne
        rcases List.mem_cons.mp ht with h | h
        · subst h
          refine ⟨by simpa using hne, ?_⟩
          intro x hx
          exact hacc x (by simpa using hx)
        · exact ih (by simp) h
    · rename_i hws
      refine ih ?_ ht
      intro x hx
      rcases List.mem_cons.mp hx with h | h
      · subst h
        simpa using hws
      · exact hacc x h

/-- String-level version of `wsTokensAux_mem` for `pyTokens`. -/
theorem pyTokens_good {s t : String} (ht : t ∈ pyTokens s) :
    t ≠ "" ∧ ∀ c ∈ t.data, pyWs c = false := by
  obtain ⟨l, hl, rfl⟩ := List.mem_map.mp ht
  have hg := wsTokensAux_mem (by simp) hl
  refine ⟨?_, hg.2⟩
  intro h
  apply hg.1
  exact congrArg String.data h

/-- Stripping is the identity on whitespace-free strings. -/
theorem pyStrip_of_nonWs {t : String} (h : ∀ c ∈ t.data, pyWs c = false) :
    pyStrip t = t := by
  cases t with
  | mk ld =>
    unfold pyStrip stripList
    rw [dropWhile_all_false h,
      dropWhile_all_false (by intro c hc; exact h c (by simpa using hc)),
      List.reverse_reverse]

/-- The validator `validate_name_parts` accepts any whitespace-free non-empty string
unchanged. -/
theorem validate_name_parts_token {t : String} (h1 : t ≠ "")
    (h2 : ∀ c ∈ t.data, pyWs c = false) :
    validate_name_parts t = .ok t := by
  have hs : pyStrip t = t := pyStrip_of_nonWs h2
  unfold validate_name_parts
  rw [if_neg (by simp [hs, h1]), hs]

/-- A `NameComponents` construction succeeds verbatim on whitespace-free
non-empty name parts. -/
theorem mkNameComponents_tokens {a b : String} (mid : Option String)
    (ha1 : a ≠ "") (ha2 : ∀ c ∈ a.data, pyWs c = false)
    (hb1 : b ≠ "") (hb2 : ∀ c ∈ b.data, pyWs c = false) :
    mkNameComponents a mid b = .ok ⟨a, mid, b⟩ := by
  unfold mkNameComponents
  rw [validate_name_parts_token ha1 ha2, validate_name_parts_token hb1 hb2]

/-- C7: `_parse_name` splits on whitespace; exactly 2 tokens give
first/last, more than 2 give first / interior-joined-by-one-space /
last, and fewer than 2 raise the validation error. -/
theorem C7_parse_name_splits (s : String) :
    (∀ a b, pyTokens s = [a, b] → ProfileService.parse_name s = .ok ⟨a, none, b⟩) ∧
    (∀ ts, pyTokens s = ts → 2 < ts.length →
      ProfileService.parse_name s =
        .ok ⟨ts.headD "", some (String.intercalate " " ((ts.drop 1).dropLast)),
             (ts.getLast?).getD ""⟩) ∧
    ((pyTokens s).length < 2 →
      ProfileService.parse_name s = .error "Name must include at least first and last name") := by
  refine ⟨?_, ?_, ?_⟩
  · intro a b h
    have hga := pyTokens_good (t := a) (by rw [h]; simp)
    have hgb := pyTokens_good (t := b) (by rw [h]; simp)
    have hmk := mkNameComponents_tokens none hga.1 hga.2 hgb.1 hgb.2
    unfold ProfileService.parse_name
    rw [h]
    simp [hmk]
  · intro ts h hlen
    subst h
    have hhead : (pyTokens s).headD "" ∈ pyTokens s := by
      cases hq : pyTokens s with
      | nil => rw [hq] at hlen; simp at hlen
      | cons x xs => simp
    have hlast : ((pyTokens s).getLast?).getD "" ∈ pyTokens s := by
      cases hq : pyTokens s with
      | nil => rw [hq] at hlen; simp at hlen
      | cons x xs =>
        rw [List.getLast?_eq_getLast _ (by simp), Option.getD_some]
        exact List.getLast_mem _
    have hga := pyTokens_good hhead
    have hgb := pyTokens_good hlast
    unfold ProfileService.parse_name
    rw [if_neg (by simp; omega), if_pos (by simpa using hlen)]
    rw [mkNameComponents_tokens _ hga.1 hga.2 hgb.1 hgb.2]
  · intro h
    unfold ProfileService.parse_name
    rw [if_neg (by simp; omega), if_neg (by omega)]

/-- Witness for C7 at two-, four- and one-token names. -/
theorem C7_witness :
    ProfileService.parse_name "John Smith" = .ok ⟨"John", none, "Smith"⟩ ∧
    ProfileService.parse_name "John Q X Public" = .ok ⟨"John", some "Q X", "Public"⟩ ∧
    ProfileService.parse_name "John" = .error "Name must include at least first and last name" := by
  refine ⟨(C7_parse_name_splits "John Smith").1 "John" "Smith" rfl, ?_, ?_⟩
  · exact (C7_parse_name_splits "John Q X Public").2.1
      ["John", "Q", "X", "Public"] rfl (by decide)
  · exact (C7_parse_name_splits "John").2.2 (by decide)

/-- C8 counterexample: a field mapping that carries an explicit
`profileCreatedAt` breaks idempotence on a first-time user: the first
call overwrites the supplied creation time with `now`, but the second
call (the document now existing) persists the supplied value, so the
second state differs from the first beyond `profileUpdatedAt`. -/
theorem C8_counterexample :
    (ProfileService.updateUserProfile today0 1 f8created emptyStore).1 = .ok () ∧
    (ProfileService.updateUserProfile today0 2 f8created
        (ProfileService.updateUserProfile today0 1 f8created emptyStore).2).2 ≠
      bumpUpdatedAt (ProfileService.updateUserProfile today0 1 f8created emptyStore).2 2 := by
  refine ⟨rfl, by decide⟩

/-- The head of a non-empty `dropWhile` result fails the predicate. -/
theorem dropWhile_head_false {α} {p : α → Bool} :
    ∀ {l : List α} {a : α} {t : List α}, l.dropWhile p = a :: t → p a = false := by
  intro l
  induction l with
  | nil => intro a t h; simp at h
  | cons b r ih =>
    intro a t h
    cases hb : p b with
    | true => rw [List.dropWhile_cons, if_pos hb] at h; exact ih h
    | false =>
      rw [List.dropWhile_cons, if_neg (by simp [hb])] at h
      cases h
      exact hb

/-- A list whose head fails the predicate is untouched by `dropWhile`. -/
theorem dropWhile_eq_self_of_head? {α} {p : α → Bool} {l : List α}
    (h : ∀ a ∈ l.head?, p a = false) : l.dropWhile p = l := by
  cases l with
  | nil => rfl
  | cons a t => simp [List.dropWhile_cons, h a (by simp)]

/-- Dropping twice is dropping once. -/
theorem dropWhile_idem {α} {p : α → Bool} {l : List α} :
    (l.dropWhile p).dropWhile p = l.dropWhile p := by
  cases hq : l.dropWhile p with
  | nil => rfl
  | cons a t => simp [List.dropWhile_cons, dropWhile_head_false hq]

/-- Dropping a prefix keeps the last element. -/
theorem dropWhile_getLast? {α} {p : α → Bool} :
    ∀ {l : List α}, l.dropWhile p ≠ [] → (l.dropWhile p).getLast? = l.getLast? := by
  intro l
  induction l with
  | nil => intro h; simp at h
  | cons b r ih =>
    intro h
    cases hb : p b with
    | false => rw [List.dropWhile_cons, if_neg (by simp [hb])]
    | true =>
      rw [List.dropWhile_cons, if_pos hb] at h ⊢
      have hr : r ≠ [] := by
        intro h0
        subst h0
        simp at h
      cases r with
      | nil => exact absurd rfl hr
      | cons c rr => rw [List.getLast?_cons_cons, ih h]

/-- Stripping is idempotent at the character-list level. -/
theorem stripList_idem (l : List Char) : stripList (stripList l) = stripList l := by
  have h1 : (stripList l).dropWhile pyWs = stripList l := by
    apply dropWhile_eq_self_of_head?
    intro a ha
    unfold stripList at ha
    rw [List.head?_reverse] at ha
    have hne : ((l.dropWhile pyWs).reverse.dropWhile pyWs) ≠ [] := by
      intro h0
      rw [h0] at ha
      simp at ha
    rw [dropWhile_getLast? hne, List.getLast?_reverse] at ha
    cases hl : l.dropWhile pyWs with
    | nil => rw [hl] at ha; simp at ha
    | cons x t =>
      rw [hl] at ha
      simp at ha
      subst ha
      exact dropWhile_head_false hl
  have h2 : (stripList l).reverse.dropWhile pyWs = (stripList l).reverse := by
    unfold stripList
    rw [List.reverse_reverse]
    exact dropWhile_idem
  show (((stripList l).dropWhile pyWs).reverse.dropWhile pyWs).reverse = stripList l
  rw [h1, h2, List.reverse_reverse]

/-- Python `strip` is idempotent. -/
theorem pyStrip_idem (s : String) : pyStrip (pyStrip s) = pyStrip s := by
  cases s with
  | mk ld => exact congrArg String.mk (stripList_idem ld)

/-- Re-validating an already validated (stripped) name part is a no-op. -/
theorem validate_name_parts_idem {v t : String}
    (h : validate_name_parts v = .ok t) : validate_name_parts t = .ok t := by
  unfold validate_name_parts at h ⊢
  split at h
  · exact absurd h (by simp)
  · rename_i hng
    cases h
    have hne : ¬(pyStrip v = "" ∨ pyStrip (pyStrip v) = "") := by
      rw [pyStrip_idem]
      simp only [or_self]
      intro h0
      exact hng (Or.inr h0)
    rw [if_neg hne, pyStrip_idem]

/-- Re-validating an already validated (stripped) address is a no-op. -/
theorem validate_address_idem {v t : String}
    (h : validate_address v = .ok t) : validate_address t = .ok t := by
  unfold validate_address at h ⊢
  split at h
  · exact absurd h (by simp)
  · rename_i hng
    split at h
    · exact absurd h (by simp)
    · rename_i hlen
      cases h
      have hne : ¬(pyStrip v = "" ∨ pyStrip (pyStrip v) = "") := by
        rw [pyStrip_idem]
        simp only [or_self]
        intro h0
        exact hng (Or.inr h0)
      rw [if_neg hne]
      simp only [pyStrip_idem]
      rw [if_neg hlen]

/-- Re-validating a validated `NameComponents` returns it unchanged. -/
theorem mkNameComponents_idem {f l0 : String} {mid : Option String} {n : NameDict}
    (h : mkNameComponents f mid l0 = .ok n) :
    mkNameComponents n.firstName n.middleName n.lastName = .ok n := by
  unfold mkNameComponents at h ⊢
  split at h
  · rename_i f2 l2 hf hl
    cases h
    simp only
    rw [validate_name_parts_idem hf, validate_name_parts_idem hl]
  · exact absurd h (by simp)

/-- Merging the same update twice equals merging it once. -/
theorem mergeOpt_idem {α} (new old : Option α) :
    mergeOpt new (mergeOpt new old) = mergeOpt new old := by
  cases new <;> rfl

/-- An absent key leaves the current value. -/
theorem mergeOpt_none {α} (old : Option α) : mergeOpt none old = old := rfl

/-- Validating the name of a second identical merge over an already
validated document succeeds with the same result. -/
theorem nameResOf_merge_idem {nv old : Option NameDict} {n : NameDict}
    (h : nameResOf (mergeOpt nv old) = .ok n) :
    nameResOf (mergeOpt nv (some n)) = .ok n := by
  cases nv with
  | some n0 => exact h
  | none =>
    cases old with
    | none => exact absurd h (by simp [mergeOpt, nameResOf])
    | some o =>
      simp only [mergeOpt, nameResOf] at h ⊢
      exact mkNameComponents_idem h

/-- Validating the address of a second identical merge over an already
validated document succeeds with the same result. -/
theorem addrResOf_merge_idem {fa old : Option String} {a : String}
    (h : addrResOf (mergeOpt fa old) = .ok a) :
    addrResOf (mergeOpt fa (some a)) = .ok a := by
  cases fa with
  | some a0 => exact h
  | none =>
    cases old with
    | none => exact absurd h (by simp [mergeOpt, addrResOf])
    | some o =>
      simp only [mergeOpt, addrResOf] at h ⊢
      split at h
      · rename_i b hb
        cases h
        rw [validate_address_idem hb]
      · exact absurd h (by simp)

/-- Core of C8: if the first merge validated to `v` and the stored
document now carries the validated values (`cur`), re-validating the same
fields (with no explicit `profileCreatedAt`) succeeds and only
`profileComplete` and `profileUpdatedAt` can differ. -/
theorem validateUserProfile_second (today : PyDate) (now1 now2 : Nat)
    (f : ProfileFields) (nv : Option NameDict) (C cur : UserDoc) (existed : Bool)
    (v : ValidUser)
    (hc : f.profileCreatedAt = none)
    (hv : validateUserProfile today now1 (mergedUserFor f nv C existed now1) = .ok v)
    (hn : cur.name = some v.name) (hd : cur.dateOfBirth = v.dateOfBirth)
    (ha : cur.address = some v.address)
    (hca : cur.profileCreatedAt = some v.profileCreatedAt) :
    validateUserProfile today now2 (mergedUserFor f nv cur true now2) =
      .ok { name := v.name, dateOfBirth := v.dateOfBirth
            address := v.address
            profileComplete := (mergeOpt f.profileComplete cur.profileComplete).getD false
            profileCreatedAt := v.profileCreatedAt
            profileUpdatedAt := now2 } := by
  unfold validateUserProfile at hv
  split at hv
  · rename_i n a hn1 hd1 ha1
    injection hv with hx
    subst hx
    simp only [mergedUserFor] at hn1 hd1 ha1 hn hd ha hca ⊢
    unfold validateUserProfile
    simp only [mergedUserFor]
    rw [hn, hd, ha, hc, mergeOpt_none, hca]
    simp only [Option.getD_some]
    rw [nameResOf_merge_idem hn1]
    rw [show mergeOpt f.dateOfBirth (mergeOpt f.dateOfBirth C.dateOfBirth)
        = mergeOpt f.dateOfBirth C.dateOfBirth from mergeOpt_idem _ _, hd1]
    rw [addrResOf_merge_idem ha1]
    simp [hc]
  · exact absurd hv (by simp)


/-- The create-if-absent step never touches the spouse document. -/
theorem s1For_spouse (now : Nat) (s : StoreState) :
    (ProfileService.s1For now s).spouse = s.spouse := by
  unfold ProfileService.s1For
  split <;> rfl

/-- The create-if-absent step never touches the child documents. -/
theorem s1For_children (now : Nat) (s : StoreState) :
    (ProfileService.s1For now s).children = s.children := by
  unfold ProfileService.s1For
  split <;> rfl

/-- The create-if-absent step never consumes child ids. -/
theorem s1For_nextChildId (now : Nat) (s : StoreState) :
    (ProfileService.s1For now s).nextChildId = s.nextChildId := by
  unfold ProfileService.s1For
  split <;> rfl

/-- The user document persisted by a successful `updateUserProfile` is
exactly `u1For`. -/
theorem finalFor_user (v : ValidUser) (now : Nat) (s : StoreState) :
    (ProfileService.finalFor v now s).user = some (u1For v s) := by
  unfold ProfileService.finalFor ProfileService.updateProfileCompletionStatus
    ProfileService.getProfileCompletionStatus ProfileService.getUserProfile
    ProfileService.updateChildrenCount ProfileService.setProfileCompleteFlag
    ProfileService.completionFromProfile u1For completionB
  simp [s1For_spouse, s1For_children, docOfValid, ProfileService.userMissing]

/-- A successful `updateUserProfile` leaves the spouse document alone. -/
theorem finalFor_spouse (v : ValidUser) (now : Nat) (s : StoreState) :
    (ProfileService.finalFor v now s).spouse = s.spouse := by
  unfold ProfileService.finalFor ProfileService.updateProfileCompletionStatus
    ProfileService.getProfileCompletionStatus ProfileService.getUserProfile
    ProfileService.updateChildrenCount ProfileService.setProfileCompleteFlag
  simp [s1For_spouse]

/-- A successful `updateUserProfile` leaves the child documents alone. -/
theorem finalFor_children (v : ValidUser) (now : Nat) (s : StoreState) :
    (ProfileService.finalFor v now s).children = s.children := by
  unfold ProfileService.finalFor ProfileService.updateProfileCompletionStatus
    ProfileService.getProfileCompletionStatus ProfileService.getUserProfile
    ProfileService.updateChildrenCount ProfileService.setProfileCompleteFlag
  simp [s1For_children]

/-- A successful `updateUserProfile` consumes no child ids. -/
theorem finalFor_nextChildId (v : ValidUser) (now : Nat) (s : StoreState) :
    (ProfileService.finalFor v now s).nextChildId = s.nextChildId := by
  unfold ProfileService.finalFor ProfileService.updateProfileCompletionStatus
    ProfileService.getProfileCompletionStatus ProfileService.getUserProfile
    ProfileService.updateChildrenCount ProfileService.setProfileCompleteFlag
  simp [s1For_nextChildId]

/-- Extensionality for store states. -/
theorem storeState_ext {a b : StoreState} (h1 : a.user = b.user)
    (h2 : a.spouse = b.spouse) (h3 : a.children = b.children)
    (h4 : a.nextChildId = b.nextChildId) : a = b := by
  cases a
  cases b
  simp_all

/-- C8 amended: `updateUser` is idempotent under repeated identical
merges for every field mapping that does not carry an explicit
`profileCreatedAt` (all extraction-derived mappings): a second call with
the same fields succeeds and reproduces the first persisted state —
including the recomputed `profileComplete` flag — changing only
`profileUpdatedAt`.  Mappings carrying `profileCreatedAt` break this on
a first-time user (see the counterexample). -/
theorem C8_amended_idempotent_without_createdAt (today : PyDate) (now1 now2 : Nat) (f : ProfileFields)
    (s s1 : StoreState) (hc : f.profileCreatedAt = none)
    (h : ProfileService.updateUserProfile today now1 f s = (.ok (), s1)) :
    ProfileService.updateUserProfile today now2 f s1 = (.ok (), bumpUpdatedAt s1 now2) := by
  simp only [ProfileService.updateUserProfile] at h ⊢
  split at h
  · simp at h
  · rename_i nv hn
    split at h
    · simp at h
    · rename_i v hv
      simp only [Prod.mk.injEq, true_and] at h
      subst h
      have hS : (ProfileService.finalFor v now1 s).user = some (u1For v s) :=
        finalFor_user v now1 s
      have hcur : ProfileService.currentFor now2 (ProfileService.finalFor v now1 s)
          = u1For v s := by
        simp [ProfileService.currentFor, ProfileService.s1For, hS]
      have hv2 := validateUserProfile_second today now1 now2 f nv
        (ProfileService.currentFor now1 s) (u1For v s) (s.user.isSome) v hc hv
        rfl rfl rfl rfl
      rw [hcur]
      simp only [hS, Option.isSome_some]
      rw [hv2]
      simp only [Prod.mk.injEq, true_and]
      apply storeState_ext
      · rw [finalFor_user]
        unfold bumpUpdatedAt
        rw [hS]
        simp [u1For, completionB, docOfValid, ProfileService.userMissing,
          finalFor_spouse, finalFor_children]
      · rw [finalFor_spouse]
        unfold bumpUpdatedAt
        rfl
      · rw [finalFor_children]
        unfold bumpUpdatedAt
        rfl
      · rw [finalFor_nextChildId]
        unfold bumpUpdatedAt
        rfl

/-- Witness for C8 amended: a plain extraction-derived mapping applied
twice on a fresh store. -/
theorem C8_amended_witness :
    ProfileService.updateUserProfile today0 2 f8plain
        (ProfileService.updateUserProfile today0 1 f8plain emptyStore).2 =
      (.ok (), bumpUpdatedAt (ProfileService.updateUserProfile today0 1 f8plain emptyStore).2 2) :=
  C8_amended_idempotent_without_createdAt today0 1 2 f8plain emptyStore
    ((ProfileService.updateUserProfile today0 1 f8plain emptyStore).2) rfl (by rfl)
